import Mathlib

/-!
Verification development for the ocean provider service.

This file gives a shallow embedding of the order-verification and
workflow-validation code of the repository (the files
ocean_provider/utils/datatoken.py, ocean_provider/validation/algo.py and
ocean_provider/validation/provider_requests.py) and proves properties of
that embedding. External collaborators (chain RPC, metadata store, hash
functions) are passed in as explicit function parameters so that every
definition stays executable on concrete inputs.
-/

/- ======================= Python value model ======================= -/

/-- Model of the dynamically-typed values appearing in request
dictionaries: JSON null, integers, strings, and dictionaries
(abstracted to their emptiness, which is all Python truthiness needs). -/
inductive PyVal where
  | pynone
  | pyint (n : Int)
  | pystr (s : String)
  | pydict (empty : Bool)
deriving DecidableEq, Repr

/-- Python truthiness of a value: None, 0, the empty string and the
empty dict are falsy, everything else is truthy. -/
def truthy : PyVal → Bool
  | PyVal.pynone => false
  | PyVal.pyint n => n != 0
  | PyVal.pystr s => s != ""
  | PyVal.pydict e => !e

/-- Python inequality of a value against the integer literal 0: values of
a non-integer type are always unequal to 0, an integer n is unequal to 0
exactly when n is nonzero. -/
def pyNeIntZero : PyVal → Bool
  | PyVal.pyint n => n != 0
  | _ => true

/-- Rendering of a PyVal into the string used in formatted error
messages (the str() call of Python, up to the abstractions above). -/
def pyStr : PyVal → String
  | PyVal.pynone => "None"
  | PyVal.pyint n => toString n
  | PyVal.pystr s => s
  | PyVal.pydict _ => "dict"

/- ======================= Order verifier (utils/datatoken.py) ======================= -/

/-- Arguments of a decoded OrderStarted event, as read by
verify_order_tx from order_log.args. The mrktFeeCollector field keeps
only its truthiness, which is all the source consults. -/
structure OrderEventArgs where
  serviceId : Nat
  timestamp : Int
  mrktFeeCollector : Bool
  marketFee : Int
  consumer : String
  payer : String
deriving DecidableEq, Repr

/-- Arguments of a decoded Transfer event: destination address and value. -/
structure TransferEventArgs where
  toAddr : String
  value : Int
deriving DecidableEq, Repr

/-- A transaction receipt as consumed by verify_order_tx: the status
field and the two event decodes performed on its logs (OrderStarted and
Transfer, each with DISCARD for non-matching logs). -/
structure Receipt where
  status : Nat
  orderEvents : List OrderEventArgs
  transferEvents : List TransferEventArgs
deriving DecidableEq, Repr

/-- The datatoken contract as consulted by verify_order_tx: its address,
the minter (contract.caller.minter) and the on-chain calculateFee
function (contract.caller.calculateFee), abstracted as an integer
function supplied by the environment. -/
structure Contract where
  address : String
  minter : String
  calculateFee : Int → Int → Int

/-- The service fields verify_order_tx reads: service.index and the
timeout entry of service.main. -/
structure OrderService where
  index : Nat
  timeout : Int
deriving DecidableEq, Repr

/-- Outcome of one attempt of get_tx_receipt: a receipt value (possibly
None), the ConnectionClosed exception, or any other exception. -/
inductive FetchResult where
  | got (r : Option Receipt)
  | connClosed
  | otherExc
deriving DecidableEq, Repr

/-- The distinct failure exits of verify_order_tx, one per raise site. -/
inductive OrderError where
  | connectionClosed
  | otherException
  | noReceipt
  | txFailed
  | noOrderEvent
  | multipleOrderEvents
  | assetMismatch
  | serviceMismatch
  | expired
  | excessiveMarketFee
  | senderMismatch
  | noMatchingTransfer
  | insufficientPayment
deriving DecidableEq, Repr

/-- Successful result of verify_order_tx: the decoded order event and
the selected highest-value transfer to the minter. -/
structure VerifyResult where
  order : OrderEventArgs
  transfer : TransferEventArgs
deriving DecidableEq, Repr

/-- OPF fee per token, to_wei of 0.001. -/
def OPF_FEE_PER_TOKEN : Int := 1000000000000000

/-- Maximum market fee per token, to_wei of 0.001. -/
def MAX_MARKET_FEE_PER_TOKEN : Int := 1000000000000000

/-- The receipt-fetch logic at the top of verify_order_tx: one call of
get_tx_receipt, and on ConnectionClosed exactly one further call whose
outcome (success or failure) stands. The fetch oracle is indexed by the
attempt number; the second component records which attempts were made. -/
def get_tx_receipt_with_retry (fetch : Nat → FetchResult) : FetchResult × List Nat :=
  match fetch 0 with
  | FetchResult.connClosed => (fetch 1, [0, 1])
  | r => (r, [0])

/-- Lower-cases a string character by character, matching str.lower on
the address alphabet. -/
def lowerStr (s : String) : String := ⟨s.data.map Char.toLower⟩

/-- The remove_0x_prefix helper of eth_utils: drops a leading 0x or 0X. -/
def remove0x (s : String) : String :=
  if s.data.take 2 = ['0', 'x'] ∨ s.data.take 2 = ['0', 'X'] then ⟨s.data.drop 2⟩ else s

/-- The market-fee block of verify_order_tx: when the event has a truthy
mrktFeeCollector and a positive marketFee, the fee must not exceed
calculateFee(amount, MAX_MARKET_FEE_PER_TOKEN) + 5 and is subtracted
from the running target amount. -/
def marketFeeAdjust (contract : Contract) (orderLog : OrderEventArgs)
    (amount target0 : Int) : Except OrderError Int :=
  if orderLog.mrktFeeCollector ∧ orderLog.marketFee > 0 then
    if orderLog.marketFee ≤ contract.calculateFee amount MAX_MARKET_FEE_PER_TOKEN + 5 then
      Except.ok (target0 - orderLog.marketFee)
    else Except.error OrderError.excessiveMarketFee
  else Except.ok target0

/-- The element the source obtains as transfers[-1] after a stable
ascending sort by value: the last transfer of maximal value. -/
def lastMaxTransfer (l : List TransferEventArgs) : Option TransferEventArgs :=
  l.foldl
    (fun acc t =>
      match acc with
      | none => some t
      | some b => if t.value ≥ b.value then some t else some b)
    none

/-- The transfer-aggregation tail of verify_order_tx: keep the Transfer
events addressed to the minter (the dict grouping of the source keyed by
the to field, read at the minter key), fail when there are none, sum the
values, fail when the sum is below target_amount - 5, otherwise return
the order with the highest-value transfer of the group. -/
def paymentCheck (contract : Contract) (orderLog : OrderEventArgs)
    (receipt : Receipt) (target_amount : Int) : Except OrderError VerifyResult :=
  let transfers := receipt.transferEvents.filter (fun t => t.toAddr == contract.minter)
  if transfers.isEmpty then Except.error OrderError.noMatchingTransfer
  else
    let total := (transfers.map TransferEventArgs.value).sum
    if total < target_amount - 5 then Except.error OrderError.insufficientPayment
    else
      match lastMaxTransfer transfers with
      | some best => Except.ok ⟨orderLog, best⟩
      | none => Except.error OrderError.noMatchingTransfer

/-- The tail of verify_order_tx after the expiry check: compute
target_amount = amount - calculateFee(amount, OPF_FEE_PER_TOKEN), apply
the market-fee block, check that the sender argument is the consumer or
the payer of the event, then run the transfer aggregation. The
web3.eth.get_transaction call of the source is only returned to the
caller, never consulted by the checks, so it is not modelled. -/
def orderTail (contract : Contract) (orderLog : OrderEventArgs) (receipt : Receipt)
    (amount : Int) (sender : String) : Except OrderError VerifyResult :=
  match marketFeeAdjust contract orderLog amount
      (amount - contract.calculateFee amount OPF_FEE_PER_TOKEN) with
  | Except.error e => Except.error e
  | Except.ok target_amount =>
    if ¬ (sender = orderLog.consumer ∨ sender = orderLog.payer) then
      Except.error OrderError.senderMismatch
    else paymentCheck contract orderLog receipt target_amount

/-- Shallow embedding of verify_order_tx of utils/datatoken.py. The
fetch oracle stands for get_tx_receipt on successive attempts, now for
datetime.utcnow().timestamp(). Checks appear in source order: receipt
fetch with a single retry on ConnectionClosed, missing receipt, reverted
status, OrderStarted decode (zero events, then more than one), asset-id
equality after remove_0x_prefix and lower-casing, service index equality
as strings, expiry with a strict comparison guarded by a nonzero
timeout, then the fee, sender and transfer checks of orderTail. -/
def verify_order_tx (fetch : Nat → FetchResult) (contract : Contract)
    (did : String) (service : OrderService) (amount : Int) (sender : String)
    (now : Int) : Except OrderError VerifyResult :=
  match (get_tx_receipt_with_retry fetch).1 with
  | FetchResult.connClosed => Except.error OrderError.connectionClosed
  | FetchResult.otherExc => Except.error OrderError.otherException
  | FetchResult.got none => Except.error OrderError.noReceipt
  | FetchResult.got (some receipt) =>
    if receipt.status = 0 then Except.error OrderError.txFailed
    else
      match receipt.orderEvents with
      | [] => Except.error OrderError.noOrderEvent
      | orderLog :: rest =>
        if rest ≠ [] then Except.error OrderError.multipleOrderEvents
        else if lowerStr (remove0x did) ≠ lowerStr (remove0x contract.address) then
          Except.error OrderError.assetMismatch
        else if toString orderLog.serviceId ≠ toString service.index then
          Except.error OrderError.serviceMismatch
        else if service.timeout ≠ 0 ∧ now - orderLog.timestamp > service.timeout then
          Except.error OrderError.expired
        else orderTail contract orderLog receipt amount sender

/- ======================= Consumption ledger ======================= -/

/-- A persisted consumption row: the (did, serviceId, txId) binding with
the consumer, the datatoken address and the use counter. -/
structure ConsumeRecord where
  did : String
  serviceId : String
  txId : String
  consumer : String
  tokenAddress : String
  count : Nat
deriving DecidableEq, Repr

/-- The single ledger error kind of the replay check. -/
inductive LedgerError where
  | transferAlreadyUsed
deriving DecidableEq, Repr

/-- Modelled from the spec: validate_transfer_not_used_for_other_service
lives in ocean_provider/utils/util.py, which is not among the provided
source files. Per section 4.4 of the spec, a txId previously bound to a
different (did, serviceId) pair than the one now presented must fail
with TransferAlreadyUsed; binding to the same pair is permitted
repeatedly. The consumer and token parameters are carried to mirror the
call signature but do not enter the decision. -/
def validate_transfer_not_used_for_other_service (ledger : List ConsumeRecord)
    (did serviceId txId _consumer _token : String) : Except LedgerError Unit :=
  if ledger.any (fun r => r.txId == txId && !(r.did == did && r.serviceId == serviceId)) then
    Except.error LedgerError.transferAlreadyUsed
  else Except.ok ()

/-- Modelled from the spec: record_consume_request lives in
ocean_provider/utils/util.py, which is not among the provided source
files. Per sections 3 and 4.4 of the spec, the record is created on
first successful verification, never deleted, and its use counter is
incremented on a legitimate repeat binding of the same
(did, serviceId, txId) triple. -/
def record_consume_request (ledger : List ConsumeRecord)
    (did serviceId txId consumer token : String) (amount : Nat) : List ConsumeRecord :=
  if ledger.any (fun r => r.did == did && r.serviceId == serviceId && r.txId == txId) then
    ledger.map (fun r =>
      if r.did == did && r.serviceId == serviceId && r.txId == txId then
        ⟨r.did, r.serviceId, r.txId, r.consumer, r.tokenAddress, r.count + amount⟩
      else r)
  else ledger ++ [⟨did, serviceId, txId, consumer, token, amount⟩]

/-- Failure modes of InputItemValidator.validate_usage: the chain-side
validate_order call raising, or the ledger replay check raising. -/
inductive UsageError where
  | orderFailed
  | ledgerError (e : LedgerError)
deriving DecidableEq, Repr

/-- Short rendering of a usage error for the formatted message of
validate_usage. -/
def usageErrText : UsageError → String
  | UsageError.orderFailed => "order invalid"
  | UsageError.ledgerError LedgerError.transferAlreadyUsed => "TransferAlreadyUsed"

/-- Shallow embedding of InputItemValidator.validate_usage of
validation/algo.py. The try block runs validate_order (here an oracle
outcome passed by the caller), then the replay check, then the record;
any exception aborts the block at its raise point, leaving the ledger as
it was, and is reported as a failure. The first component is the
outcome (the validUntil value on success), the second the ledger after
the call. -/
def validate_usage (orderResult : Except UsageError Int) (ledger : List ConsumeRecord)
    (did serviceId txId consumer token : String) :
    Except UsageError Int × List ConsumeRecord :=
  match orderResult with
  | Except.error e => (Except.error e, ledger)
  | Except.ok validUntil =>
    match validate_transfer_not_used_for_other_service ledger did serviceId txId consumer token with
    | Except.error e => (Except.error (UsageError.ledgerError e), ledger)
    | Except.ok _ => (Except.ok validUntil,
        record_consume_request ledger did serviceId txId consumer token 1)

/- ======================= Trusted algorithm policy ======================= -/

/-- One entry of publisherTrustedAlgorithms: its did key may be absent
(the source then hits a KeyError while building the did dictionary), and
it may pin a files checksum and a container-section checksum. -/
structure TrustedAlgoEntry where
  did : Option String
  filesChecksum : Option String
  containerSectionChecksum : Option String
deriving DecidableEq, Repr

/-- External collaborators of the trusted-algorithm check: the metadata
store resolution of an algorithm did to its nft owner, to the
encrypted-files descriptor of the service selected by the request
serviceId, and to the canonical container json; and the msg_hash
function. All are abstract functions supplied by the caller. -/
structure AlgoEnv where
  ownerOf : String → String
  encryptedFilesOf : String → Option String → String
  containerJsonOf : String → String
  msgHash : String → String

/-- The checksum comparison guard of the source: a pinned value is
enforced only when it is truthy (present and nonempty), and then the
computed checksum must equal it exactly. -/
def checksumMismatch (pinned : Option String) (computed : String) : Bool :=
  match pinned with
  | none => false
  | some c => c != "" && computed != c

/-- Shallow embedding of InputItemValidator._validate_trusted_algos of
validation/algo.py, returning none on success and the error message the
source stores in self.error on failure. Both lists empty allows any
algorithm; a nonempty publisher list requires the registered owner of
the algorithm did to appear in it; a nonempty algorithm list first
requires every entry to carry a did (else the KeyError branch), then
requires the algorithm did to be a key of the did dictionary (later
entries override earlier ones, so the last matching entry is selected),
and finally enforces any pinned files and container-section checksums. -/
def _validate_trusted_algos (env : AlgoEnv) (algoServiceId : Option String)
    (algorithm_did : String) (trusted_algorithms : List TrustedAlgoEntry)
    (trusted_publishers : List String) : Option String :=
  if trusted_algorithms = [] ∧ trusted_publishers = [] then none
  else if trusted_publishers ≠ [] ∧ env.ownerOf algorithm_did ∉ trusted_publishers then
    some "this algorithm is not from a trusted publisher"
  else if trusted_algorithms = [] then none
  else if trusted_algorithms.any (fun a => a.did.isNone) then
    some "Some algos in the publisherTrustedAlgorithms do not have a did."
  else
    match trusted_algorithms.reverse.find? (fun a => a.did == some algorithm_did) with
    | none => some ("this algorithm did " ++ algorithm_did ++ " is not trusted.")
    | some entry =>
      let files_checksum := env.msgHash (env.encryptedFilesOf algorithm_did algoServiceId)
      if checksumMismatch entry.filesChecksum files_checksum then
        some ("filesChecksum for algorithm with did " ++ algorithm_did ++ " does not match")
      else
        let container_checksum := env.msgHash (env.containerJsonOf algorithm_did)
        if checksumMismatch entry.containerSectionChecksum container_checksum then
          some ("containerSectionChecksum for algorithm with did " ++ algorithm_did ++
            " does not match")
        else none

/- ======================= Input item validator (validation/algo.py) ======================= -/

/-- The service fields InputItemValidator reads: id, type,
service_endpoint, datatoken_address and the compute_dict privacy
options (trusted lists and the raw-algorithm flag). -/
structure ServiceInfo where
  id : String
  svcType : String
  serviceEndpoint : String
  datatokenAddress : String
  publisherTrustedAlgorithms : List TrustedAlgoEntry
  publisherTrustedAlgorithmPublishers : List String
  allowRawAlgorithm : Bool

/-- The asset fields InputItemValidator reads: the nft owner and the
get_service_by_id lookup, a function because the request serviceId is a
dynamic value. -/
structure AssetInfo where
  nftOwner : String
  getServiceById : PyVal → Option ServiceInfo

/-- External collaborators of InputItemValidator: the metadata store,
the consumability gate, the provider file-list resolution, the
trusted-algorithm collaborators, and the validate_order chain call of
ocean_provider/utils/util.py (not among the provided source files),
treated as an oracle from the transfer tx id, asset and service to a
validUntil value or a failure. -/
structure ItemEnv where
  getAsset : PyVal → Option AssetInfo
  checkConsumable : String → String → Bool × String
  getServiceFilesList : ServiceInfo → List String
  algoEnv : AlgoEnv
  validateOrder : PyVal → ServiceInfo → Except UsageError Int

/-- The one uncaught exception kind this embedding tracks: an attribute
read on self for a name that was never assigned. -/
inductive PyExc where
  | attributeError (name : String)
deriving DecidableEq, Repr

/-- Attribute lookup on self: succeeds exactly for names present in the
attribute list, otherwise raises AttributeError as CPython does. -/
def pyGetAttr (attrs : List String) (name : String) : Except PyExc Unit :=
  if name ∈ attrs then Except.ok () else Except.error (PyExc.attributeError name)

/-- Attributes readable on an InputItemValidator instance at the point
of the userdata assignment in the remote branch of validate, on the
success path: the constructor-set fields, the class methods, and the
fields validate has assigned so far. The name validate_inputs is not
among them; only validated_inputs ever is. -/
def input_item_validator_attrs : List String :=
  ["web3", "consumer_address", "provider_wallet", "data", "extra_data", "index",
   "validate", "_validate_trusted_algos", "validate_algo", "validate_usage",
   "did", "asset", "service", "validated_inputs"]

/-- Conversion of a dynamic serviceId value into the optional string the
trusted-algorithm check receives. -/
def optStrOf : PyVal → Option String
  | PyVal.pynone => none
  | v => some (pyStr v)

/-- One input item of a workflow request, with the algorithm data the
workflow validator copies into every item. -/
structure InputItem where
  documentId : PyVal
  transferTxId : PyVal
  serviceId : PyVal
  userdata : PyVal
  algorithmDocumentId : PyVal
  algorithmMeta : PyVal
  algorithmServiceId : PyVal

/-- Shallow embedding of InputItemValidator.validate_algo of
validation/algo.py: both meta and documentId absent (tested with
identity against None) fails; a truthy documentId delegates to the
trusted-algorithm check with the privacy options of the service;
otherwise a raw algorithm is only allowed when allowRawAlgorithm holds. -/
def validate_algo (env : ItemEnv) (item : InputItem) (service : ServiceInfo)
    (selfDid : PyVal) : Option String :=
  if item.algorithmDocumentId = PyVal.pynone ∧ item.algorithmMeta = PyVal.pynone then
    some "both meta and documentId are missing from algorithm input, at least one of these is required."
  else if truthy item.algorithmDocumentId then
    _validate_trusted_algos env.algoEnv (optStrOf item.algorithmServiceId)
      (pyStr item.algorithmDocumentId) service.publisherTrustedAlgorithms
      service.publisherTrustedAlgorithmPublishers
  else if service.allowRawAlgorithm = false then
    some ("cannot run raw algorithm on this did " ++ pyStr selfDid ++ ".")
  else none

/-- The tail of InputItemValidator.validate that runs validate_usage and
formats its failure into the self.error message of the source. -/
def validate_usage_step (env : ItemEnv) (ledger : List ConsumeRecord)
    (consumer : String) (item : InputItem) (did : PyVal) (service : ServiceInfo) :
    Except PyExc (Option String × List ConsumeRecord) :=
  let r := validate_usage (env.validateOrder item.transferTxId service) ledger
    (pyStr did) service.id (pyStr item.transferTxId) consumer service.datatokenAddress
  match r.1 with
  | Except.ok _ => Except.ok (none, r.2)
  | Except.error e =>
    Except.ok (some ("Order for serviceId " ++ service.id ++ " is not valid. " ++
      usageErrText e ++ "."), r.2)

/-- The body of InputItemValidator.validate after the required-field
checks, starting at the asset resolution: metadata lookup, service
lookup, consumability gate, service-type constraints, provider-locality
check of the file list, the algorithm check for compute services, then
either the url branch or the remote branch. In the remote branch a
truthy userdata makes the source assign into self.validate_inputs, an
attribute that was never set (only validated_inputs was), so CPython
raises AttributeError there; the embedding performs the same attribute
lookup against the attribute list. On all other paths the item ends in
validate_usage. -/
def validate_resolved (env : ItemEnv) (ledger : List ConsumeRecord)
    (consumer : String) (item : InputItem) (index : Nat) :
    Except PyExc (Option String × List ConsumeRecord) :=
  let did := item.documentId
  match env.getAsset did with
  | none => Except.ok (some ("Asset for did " ++ pyStr did ++ " not found."), ledger)
  | some asset =>
    match asset.getServiceById item.serviceId with
    | none => Except.ok (some ("Service id " ++ pyStr item.serviceId ++ " not found."), ledger)
    | some service =>
      let cm := env.checkConsumable consumer service.serviceEndpoint
      if ¬ cm.1 then Except.ok (some cm.2, ledger)
      else if ¬ (service.svcType = "access" ∨ service.svcType = "compute") then
        Except.ok (some "Services in input can only be access or compute.", ledger)
      else if service.svcType ≠ "compute" ∧ index = 0 then
        Except.ok (some "Service for main asset must be compute.", ledger)
      else
        let asset_urls := env.getServiceFilesList service
        if service.svcType = "compute" ∧ asset_urls = [] then
          Except.ok (some "Services in input with compute type must be in the same provider you are calling.", ledger)
        else
          match (if service.svcType = "compute" then validate_algo env item service did else none) with
          | some err => Except.ok (some err, ledger)
          | none =>
            if asset_urls ≠ [] then
              validate_usage_step env ledger consumer item did service
            else if truthy item.userdata then
              match pyGetAttr input_item_validator_attrs "validate_inputs" with
              | Except.error e => Except.error e
              | Except.ok _ => validate_usage_step env ledger consumer item did service
            else validate_usage_step env ledger consumer item did service

/-- Shallow embedding of InputItemValidator.validate of
validation/algo.py. The required-field loop rejects a falsy documentId
or transferTxId; the serviceId check rejects a value that is falsy and
also unequal to the integer 0, so the integer 0 passes; then control
moves to the asset resolution of validate_resolved. The first component
of a normal return is none for True and the self.error message for
False; an Except.error is an uncaught Python exception. -/
def InputItemValidator.validate (env : ItemEnv) (ledger : List ConsumeRecord)
    (consumer : String) (item : InputItem) (index : Nat) :
    Except PyExc (Option String × List ConsumeRecord) :=
  if ¬ truthy item.documentId then Except.ok (some "No documentId in input item.", ledger)
  else if ¬ truthy item.transferTxId then
    Except.ok (some "No transferTxId in input item.", ledger)
  else if ¬ truthy item.serviceId ∧ item.serviceId ≠ PyVal.pyint 0 then
    Except.ok (some "No serviceId in input item.", ledger)
  else validate_resolved env ledger consumer item index

/- ======================= Workflow validator loop ======================= -/

/-- The message the workflow validator stores when the item at the given
enumerate index fails with the given item error: unprefixed at index 0
(the index is falsy there), prefixed with the position otherwise. -/
def item_error_message (index : Nat) (err : String) : String :=
  (if index = 0 then "" else "Error in input at index " ++ toString index ++ ": ") ++ err

/-- Shallow embedding of the item loop of WorkflowValidator.validate_input
of validation/algo.py, abstracted over the per-item validation outcome
(none for success, the item error message otherwise): items are visited
in enumerate order from the given index, the first failing item stops
the loop with its formatted message, and success of all items yields
none. -/
def validate_input_loop (itemCheck : Nat → α → Option String) :
    Nat → List α → Option String
  | _, [] => none
  | idx, x :: rest =>
    match itemCheck idx x with
    | some err => some (item_error_message idx err)
    | none => validate_input_loop itemCheck (idx + 1) rest

/- ======================= Timestamp rule (validation/provider_requests.py) ======================= -/

/-- A datetime.datetime object, as produced by datetime.fromtimestamp. -/
structure PyDatetime where
  seconds : Int
deriving DecidableEq, Repr

/-- datetime.fromtimestamp on a dynamic value: numeric values convert to
a datetime object, everything else raises. -/
def datetime_fromtimestamp : PyVal → Except Unit PyDatetime
  | PyVal.pyint n => Except.ok ⟨n⟩
  | _ => Except.error ()

/-- The Python comparison of a datetime.datetime against an int: both
comparison methods return NotImplemented, so the interpreter raises
TypeError, whatever the two values are. -/
def pyGtDatetimeInt (_d : PyDatetime) (_n : Int) : Except Unit Bool :=
  Except.error ()

/-- Shallow embedding of CustomRulesProcessor.validate_timestamp of
validation/provider_requests.py: the try block converts the value with
datetime.fromtimestamp, takes int(datetime.utcnow().timestamp()) as the
current time, and returns the comparison valid_until > timestamp_now,
which compares a datetime object against an int; any exception in the
block, the TypeError of that comparison included, is caught and
answered with False. -/
def validate_timestamp (value : PyVal) (now : Int) : Bool :=
  match datetime_fromtimestamp value with
  | Except.error _ => false
  | Except.ok d =>
    match pyGtDatetimeInt d now with
    | Except.error _ => false
    | Except.ok b => b

/- ======================= Concrete fixtures ======================= -/

def wContract : Contract := ⟨"0xAbC", "minter", fun _ _ => 0⟩

def wOrderLog : OrderEventArgs := ⟨3, 100, false, 0, "alice", "bob"⟩

def wReceipt : Receipt := ⟨1, [wOrderLog], [⟨"minter", 995⟩]⟩

def wFetch : Nat → FetchResult := fun _ => FetchResult.got (some wReceipt)

def wService : OrderService := ⟨3, 50⟩

def wFetchCC : Nat → FetchResult := fun _ => FetchResult.connClosed

def wAlgoEnv : AlgoEnv := ⟨fun _ => "pub", fun _ _ => "ef", fun _ => "cj", fun s => s⟩

def wServiceInfo : ServiceInfo := ⟨"svc1", "access", "http://sep", "0xtok", [], [], false⟩

def wAsset : AssetInfo := ⟨"owner1", fun _ => some wServiceInfo⟩

def wItemEnv : ItemEnv :=
  ⟨fun _ => some wAsset, fun _ _ => (true, ""), fun _ => [], wAlgoEnv, fun _ _ => Except.ok 7⟩

def wInputItem : InputItem :=
  ⟨PyVal.pystr "did:op:1", PyVal.pystr "0xtx", PyVal.pyint 0, PyVal.pystr "ud",
   PyVal.pynone, PyVal.pystr "m", PyVal.pynone⟩

def wItemCheck : Nat → Nat → Option String :=
  fun i _ => if i = 1 then some "boom" else none

/- ======================= Theorems ======================= -/

theorem paymentCheck_ok_order {c : Contract} {o : OrderEventArgs} {r : Receipt}
    {t : Int} {v : VerifyResult} (h : paymentCheck c o r t = Except.ok v) :
    v.order = o := by
  simp only [paymentCheck] at h
  split at h
  · exact absurd h (by simp)
  · split at h
    · exact absurd h (by simp)
    · split at h
      · cases h
        rfl
      · exact absurd h (by simp)

theorem orderTail_ok_sender {c : Contract} {o : OrderEventArgs} {r : Receipt}
    {a : Int} {s : String} {v : VerifyResult}
    (h : orderTail c o r a s = Except.ok v) :
    s = v.order.consumer ∨ s = v.order.payer := by
  unfold orderTail at h
  split at h
  · exact absurd h (by simp)
  · rename_i target htarget
    split at h
    · exact absurd h (by simp)
    · rename_i hc
      rw [paymentCheck_ok_order h]
      exact not_not.mp hc

theorem orderTail_ne_expired (c : Contract) (o : OrderEventArgs) (r : Receipt)
    (a : Int) (s : String) :
    orderTail c o r a s ≠ Except.error OrderError.expired := by
  intro h
  unfold orderTail at h
  split at h
  · rename_i e he
    unfold marketFeeAdjust at he
    split at he
    · split at he <;> simp_all
    · simp_all
  · split at h
    · simp_all
    · simp only [paymentCheck] at h
      split at h
      · simp_all
      · split at h
        · simp_all
        · split at h <;> simp_all

theorem lastMaxTransfer_some_aux (l : List TransferEventArgs) (b : TransferEventArgs) :
    ∃ c, l.foldl
      (fun acc t =>
        match acc with
        | none => some t
        | some b => if t.value ≥ b.value then some t else some b)
      (some b) = some c := by
  induction l generalizing b with
  | nil => exact ⟨b, rfl⟩
  | cons x xs ih =>
    simp only [List.foldl_cons]
    by_cases hx : x.value ≥ b.value
    · simpa [hx] using ih x
    · simpa [hx] using ih b

theorem lastMaxTransfer_ne_nil_some {l : List TransferEventArgs} (h : l ≠ []) :
    ∃ b, lastMaxTransfer l = some b := by
  match l with
  | [] => exact absurd rfl h
  | x :: xs =>
    unfold lastMaxTransfer
    simpa using lastMaxTransfer_some_aux xs x

theorem verify_reduces_to_expiry_gate
    (fetch : Nat → FetchResult) (contract : Contract) (did : String)
    (service : OrderService) (amount : Int) (sender : String) (now : Int)
    (receipt : Receipt) (orderLog : OrderEventArgs)
    (hf : fetch 0 = FetchResult.got (some receipt))
    (hs : receipt.status ≠ 0)
    (hev : receipt.orderEvents = [orderLog])
    (hid : lowerStr (remove0x did) = lowerStr (remove0x contract.address))
    (hsvc : toString orderLog.serviceId = toString service.index) :
    verify_order_tx fetch contract did service amount sender now
      = if service.timeout ≠ 0 ∧ now - orderLog.timestamp > service.timeout then
          Except.error OrderError.expired
        else orderTail contract orderLog receipt amount sender := by
  unfold verify_order_tx get_tx_receipt_with_retry
  rw [hf]
  simp [hs, hev, hid, hsvc]

theorem verify_ok_sender
    {fetch : Nat → FetchResult} {contract : Contract} {did : String}
    {service : OrderService} {amount : Int} {sender : String} {now : Int}
    {v : VerifyResult}
    (h : verify_order_tx fetch contract did service amount sender now = Except.ok v) :
    sender = v.order.consumer ∨ sender = v.order.payer := by
  unfold verify_order_tx at h
  split at h <;> try exact Except.noConfusion h
  split at h <;> try exact Except.noConfusion h
  split at h <;> try exact Except.noConfusion h
  split at h <;> try exact Except.noConfusion h
  split at h <;> try exact Except.noConfusion h
  split at h <;> try exact Except.noConfusion h
  split at h <;> try exact Except.noConfusion h
  exact orderTail_ok_sender h

/-- Claim C4: verification rejects the order as expired exactly when the
service timeout is nonzero and the delta exceeds it strictly; an exact
delta is not expired and a zero timeout never expires. -/
theorem order_expiry_strict_and_zero_timeout
    (fetch : Nat → FetchResult) (contract : Contract) (did : String)
    (service : OrderService) (amount : Int) (sender : String) (now : Int)
    (receipt : Receipt) (orderLog : OrderEventArgs)
    (hf : fetch 0 = FetchResult.got (some receipt))
    (hs : receipt.status ≠ 0)
    (hev : receipt.orderEvents = [orderLog])
    (hid : lowerStr (remove0x did) = lowerStr (remove0x contract.address))
    (hsvc : toString orderLog.serviceId = toString service.index) :
    (verify_order_tx fetch contract did service amount sender now
        = Except.error OrderError.expired
      ↔ service.timeout ≠ 0 ∧ now - orderLog.timestamp > service.timeout)
    ∧ (now - orderLog.timestamp = service.timeout →
        verify_order_tx fetch contract did service amount sender now
          ≠ Except.error OrderError.expired)
    ∧ (service.timeout = 0 →
        verify_order_tx fetch contract did service amount sender now
          ≠ Except.error OrderError.expired) := by
  have hgate := verify_reduces_to_expiry_gate fetch contract did service amount sender now
    receipt orderLog hf hs hev hid hsvc
  have hiff : verify_order_tx fetch contract did service amount sender now
      = Except.error OrderError.expired
      ↔ service.timeout ≠ 0 ∧ now - orderLog.timestamp > service.timeout := by
    rw [hgate]
    by_cases hexp : service.timeout ≠ 0 ∧ now - orderLog.timestamp > service.timeout
    · simp [hexp]
    · rw [if_neg hexp]
      exact ⟨fun h => absurd h (orderTail_ne_expired _ _ _ _ _), fun h => absurd h hexp⟩
  refine ⟨hiff, ?_, ?_⟩
  · intro heq h
    rcases hiff.mp h with ⟨h0, hgt⟩
    omega
  · intro h0 h
    rcases hiff.mp h with ⟨hne, _⟩
    exact hne h0

/-- Claim C3: with all earlier checks passing, the payment check fails exactly
when the sum of transfers to the minter is strictly below the target
minus 5; a sum of exactly target minus 5 is accepted, a sum of target
minus 6 or less fails. -/
theorem payment_tolerance_boundary
    (fetch : Nat → FetchResult) (contract : Contract) (did : String)
    (service : OrderService) (amount : Int) (sender : String) (now : Int)
    (receipt : Receipt) (orderLog : OrderEventArgs) (target total : Int)
    (hf : fetch 0 = FetchResult.got (some receipt))
    (hs : receipt.status ≠ 0)
    (hev : receipt.orderEvents = [orderLog])
    (hid : lowerStr (remove0x did) = lowerStr (remove0x contract.address))
    (hsvc : toString orderLog.serviceId = toString service.index)
    (hnotexp : ¬ (service.timeout ≠ 0 ∧ now - orderLog.timestamp > service.timeout))
    (hfee : marketFeeAdjust contract orderLog amount
        (amount - contract.calculateFee amount OPF_FEE_PER_TOKEN) = Except.ok target)
    (hsend : sender = orderLog.consumer ∨ sender = orderLog.payer)
    (hts : receipt.transferEvents.filter (fun t => t.toAddr == contract.minter) ≠ [])
    (htotal : total = ((receipt.transferEvents.filter
        (fun t => t.toAddr == contract.minter)).map TransferEventArgs.value).sum) :
    (verify_order_tx fetch contract did service amount sender now
        = Except.error OrderError.insufficientPayment ↔ total < target - 5)
    ∧ (total = target - 5 →
        ∃ v, verify_order_tx fetch contract did service amount sender now = Except.ok v)
    ∧ (total ≤ target - 6 →
        verify_order_tx fetch contract did service amount sender now
          = Except.error OrderError.insufficientPayment) := by
  have hgate := verify_reduces_to_expiry_gate fetch contract did service amount sender now
    receipt orderLog hf hs hev hid hsvc
  have hv : verify_order_tx fetch contract did service amount sender now
      = paymentCheck contract orderLog receipt target := by
    rw [hgate, if_neg hnotexp]
    unfold orderTail
    rw [hfee]
    dsimp only
    rw [if_neg (not_not.mpr hsend)]
  obtain ⟨b, hb⟩ := lastMaxTransfer_ne_nil_some hts
  have hempty : (receipt.transferEvents.filter (fun t => t.toAddr == contract.minter)).isEmpty = false := by
    simp [List.isEmpty_iff, hts]
  have hpc : paymentCheck contract orderLog receipt target
      = if total < target - 5 then Except.error OrderError.insufficientPayment
        else Except.ok ⟨orderLog, b⟩ := by
    simp only [paymentCheck, hempty, hb, htotal]
    rfl
  rw [hv, hpc]
  refine ⟨?_, ?_, ?_⟩
  · by_cases hlt : total < target - 5
    · simp [hlt]
    · simp [hlt]
  · intro heq
    have hlt : ¬ total < target - 5 := by omega
    rw [if_neg hlt]
    exact ⟨⟨orderLog, b⟩, rfl⟩
  · intro hle
    have hlt : total < target - 5 := by omega
    rw [if_pos hlt]

/-- Claim C1: with all earlier checks passing, a sender that is neither the
consumer nor the payer of the decoded event fails with the sender
mismatch error, and any successful verification has a sender equal to
the consumer or the payer of the decoded event. -/
theorem sender_mismatch_rejected
    (fetch : Nat → FetchResult) (contract : Contract) (did : String)
    (service : OrderService) (amount : Int) (sender : String) (now : Int)
    (receipt : Receipt) (orderLog : OrderEventArgs) (target : Int)
    (hf : fetch 0 = FetchResult.got (some receipt))
    (hs : receipt.status ≠ 0)
    (hev : receipt.orderEvents = [orderLog])
    (hid : lowerStr (remove0x did) = lowerStr (remove0x contract.address))
    (hsvc : toString orderLog.serviceId = toString service.index)
    (hnotexp : ¬ (service.timeout ≠ 0 ∧ now - orderLog.timestamp > service.timeout))
    (hfee : marketFeeAdjust contract orderLog amount
        (amount - contract.calculateFee amount OPF_FEE_PER_TOKEN) = Except.ok target)
    (hbad : sender ≠ orderLog.consumer ∧ sender ≠ orderLog.payer) :
    verify_order_tx fetch contract did service amount sender now
      = Except.error OrderError.senderMismatch
    ∧ ∀ (f2 : Nat → FetchResult) (c2 : Contract) (d2 : String) (sv2 : OrderService)
        (a2 : Int) (s2 : String) (n2 : Int) (v : VerifyResult),
        verify_order_tx f2 c2 d2 sv2 a2 s2 n2 = Except.ok v →
        s2 = v.order.consumer ∨ s2 = v.order.payer := by
  constructor
  · have hgate := verify_reduces_to_expiry_gate fetch contract did service amount sender now
      receipt orderLog hf hs hev hid hsvc
    rw [hgate, if_neg hnotexp]
    unfold orderTail
    rw [hfee]
    dsimp only
    rw [if_pos]
    rintro (h | h)
    · exact hbad.1 h
    · exact hbad.2 h
  · intro f2 c2 d2 sv2 a2 s2 n2 v h
    exact verify_ok_sender h

/-- Claim C6: the receipt fetch makes exactly the attempts 0 and 1 when the
first attempt fails with a connection-closed condition, the outcome of
the second attempt stands (a second connection failure propagates out of
verification), at most two attempts ever happen, no retry happens
without a first connection failure, and the fetch logic consults nothing
beyond the first two attempts. -/
theorem receipt_fetch_retry_once
    (fetch : Nat → FetchResult) (h0 : fetch 0 = FetchResult.connClosed) :
    (get_tx_receipt_with_retry fetch).2 = [0, 1]
    ∧ (get_tx_receipt_with_retry fetch).1 = fetch 1
    ∧ (fetch 1 = FetchResult.connClosed →
        ∀ (contract : Contract) (did : String) (service : OrderService)
          (amount : Int) (sender : String) (now : Int),
          verify_order_tx fetch contract did service amount sender now
            = Except.error OrderError.connectionClosed)
    ∧ (∀ g : Nat → FetchResult, (get_tx_receipt_with_retry g).2.length ≤ 2)
    ∧ (∀ g : Nat → FetchResult, g 0 ≠ FetchResult.connClosed →
        (get_tx_receipt_with_retry g).2 = [0])
    ∧ (∀ g g2 : Nat → FetchResult, g 0 = g2 0 → g 1 = g2 1 →
        get_tx_receipt_with_retry g = get_tx_receipt_with_retry g2) := by
  refine ⟨?_, ?_, ?_, ?_, ?_, ?_⟩
  · simp [get_tx_receipt_with_retry, h0]
  · simp [get_tx_receipt_with_retry, h0]
  · intro h1 contract did service amount sender now
    simp [verify_order_tx, get_tx_receipt_with_retry, h0, h1]
  · intro g
    unfold get_tx_receipt_with_retry
    split <;> simp
  · intro g hg
    unfold get_tx_receipt_with_retry
    split <;> simp_all
  · intro g g2 hg0 hg1
    simp only [get_tx_receipt_with_retry, hg0, hg1]


theorem order_expiry_witness :
    wReceipt.status ≠ 0
    ∧ verify_order_tx wFetch wContract "0xabc" wService 1000 "alice" 151
        = Except.error OrderError.expired
    ∧ verify_order_tx wFetch wContract "0xabc" wService 1000 "alice" 150
        ≠ Except.error OrderError.expired := by
  refine ⟨by decide, ?_, ?_⟩
  · exact (order_expiry_strict_and_zero_timeout wFetch wContract "0xabc" wService 1000 "alice"
      151 wReceipt wOrderLog rfl (by decide) rfl (by decide) rfl).1.mpr (by decide)
  · exact (order_expiry_strict_and_zero_timeout wFetch wContract "0xabc" wService 1000 "alice"
      150 wReceipt wOrderLog rfl (by decide) rfl (by decide) rfl).2.1 (by decide)

theorem payment_tolerance_witness :
    verify_order_tx wFetch wContract "0xabc" wService 1000 "alice" 120
      ≠ Except.error OrderError.insufficientPayment
    ∧ verify_order_tx wFetch wContract "0xabc" wService 1001 "alice" 120
        = Except.error OrderError.insufficientPayment := by
  constructor
  · obtain ⟨v, hv⟩ := (payment_tolerance_boundary wFetch wContract "0xabc" wService 1000 "alice"
      120 wReceipt wOrderLog 1000 995 rfl (by decide) rfl (by decide) rfl (by decide)
      rfl (Or.inl rfl) (by decide) (by decide)).2.1 (by decide)
    rw [hv]
    simp
  · exact (payment_tolerance_boundary wFetch wContract "0xabc" wService 1001 "alice" 120
      wReceipt wOrderLog 1001 995 rfl (by decide) rfl (by decide) rfl (by decide)
      rfl (Or.inl rfl) (by decide) (by decide)).2.2 (by decide)

theorem sender_mismatch_witness :
    verify_order_tx wFetch wContract "0xabc" wService 1000 "carol" 120
      = Except.error OrderError.senderMismatch :=
  (sender_mismatch_rejected wFetch wContract "0xabc" wService 1000 "carol" 120
    wReceipt wOrderLog 1000 rfl (by decide) rfl (by decide) rfl (by decide) rfl
    (by decide)).1

theorem receipt_fetch_retry_once_witness :
    (get_tx_receipt_with_retry wFetchCC).2 = [0, 1]
    ∧ verify_order_tx wFetchCC wContract "x" wService 1 "a" 0
        = Except.error OrderError.connectionClosed := by
  refine ⟨(receipt_fetch_retry_once wFetchCC rfl).1, ?_⟩
  exact (receipt_fetch_retry_once wFetchCC rfl).2.2.1 rfl wContract "x" wService 1 "a" 0

theorem any_txId_false (ledger : List ConsumeRecord) (T : String)
    (hfresh : ∀ r ∈ ledger, r.txId ≠ T) (p : ConsumeRecord → Bool) :
    ledger.any (fun r => r.txId == T && p r) = false := by
  rw [List.any_eq_false]
  intro r hr
  simp [hfresh r hr]

/-- Claim C2: once a transaction id is recorded for a (did, serviceId) pair,
recording it for a different pair fails with TransferAlreadyUsed and
leaves the ledger unchanged (the check runs before the record), while
re-recording the identical pair succeeds again. -/
theorem transfer_replay_protection
    (ledger0 : List ConsumeRecord) (D S T D2 S2 consumer token c2 tok2 : String)
    (u u2 u3 : Int)
    (hfresh : ∀ r ∈ ledger0, r.txId ≠ T)
    (hdiff : D2 ≠ D ∨ S2 ≠ S) :
    (validate_usage (Except.ok u) ledger0 D S T consumer token).1 = Except.ok u
    ∧ validate_usage (Except.ok u2)
        (validate_usage (Except.ok u) ledger0 D S T consumer token).2 D2 S2 T c2 tok2
      = (Except.error (UsageError.ledgerError LedgerError.transferAlreadyUsed),
         (validate_usage (Except.ok u) ledger0 D S T consumer token).2)
    ∧ (validate_usage (Except.ok u3)
        (validate_usage (Except.ok u) ledger0 D S T consumer token).2 D S T consumer token).1
      = Except.ok u3 := by
  have hcheck0 : validate_transfer_not_used_for_other_service ledger0 D S T consumer token
      = Except.ok () := by
    unfold validate_transfer_not_used_for_other_service
    rw [if_neg]
    simp [any_txId_false ledger0 T hfresh]
  have hrecord0 : record_consume_request ledger0 D S T consumer token 1
      = ledger0 ++ [⟨D, S, T, consumer, token, 1⟩] := by
    unfold record_consume_request
    rw [if_neg]
    intro hany
    rw [List.any_eq_true] at hany
    obtain ⟨r, hr, hp⟩ := hany
    have := hfresh r hr
    simp only [Bool.and_eq_true, beq_iff_eq] at hp
    exact this hp.2
  have hfirst : validate_usage (Except.ok u) ledger0 D S T consumer token
      = (Except.ok u, ledger0 ++ [⟨D, S, T, consumer, token, 1⟩]) := by
    unfold validate_usage
    rw [hcheck0]
    rw [hrecord0]
  have hcheck2 : validate_transfer_not_used_for_other_service
      (ledger0 ++ [⟨D, S, T, consumer, token, 1⟩]) D2 S2 T c2 tok2
      = Except.error LedgerError.transferAlreadyUsed := by
    unfold validate_transfer_not_used_for_other_service
    rw [if_pos]
    rw [List.any_append]
    rw [any_txId_false ledger0 T hfresh]
    simp only [Bool.false_or, List.any_cons, List.any_nil, Bool.or_false, beq_self_eq_true,
      Bool.true_and]
    rcases hdiff with h | h
    · simp [Ne.symm h]
    · simp [Ne.symm h]
  have hcheck1 : validate_transfer_not_used_for_other_service
      (ledger0 ++ [⟨D, S, T, consumer, token, 1⟩]) D S T consumer token
      = Except.ok () := by
    unfold validate_transfer_not_used_for_other_service
    rw [if_neg]
    rw [List.any_append]
    rw [any_txId_false ledger0 T hfresh]
    simp
  refine ⟨by rw [hfirst], ?_, ?_⟩
  · rw [hfirst]
    dsimp only
    unfold validate_usage
    rw [hcheck2]
  · rw [hfirst]
    dsimp only
    unfold validate_usage
    rw [hcheck1]

/-- Claim C5: with both a nonempty trusted-publisher list (containing the
publisher of the algorithm) and a nonempty trusted-algorithm list whose
entries all carry a did but none of them the did of the algorithm, the
check fails with the untrusted-algorithm error; with neither list
configured, every algorithm did is allowed. -/
theorem trusted_algo_checks_additive
    (env : AlgoEnv) (sid : Option String) (algorithm_did : String)
    (trusted_algorithms : List TrustedAlgoEntry) (trusted_publishers : List String)
    (hpub : trusted_publishers ≠ [])
    (halg : trusted_algorithms ≠ [])
    (howner : env.ownerOf algorithm_did ∈ trusted_publishers)
    (hdids : ∀ a ∈ trusted_algorithms, a.did.isSome)
    (habsent : ∀ a ∈ trusted_algorithms, a.did ≠ some algorithm_did) :
    _validate_trusted_algos env sid algorithm_did trusted_algorithms trusted_publishers
      = some ("this algorithm did " ++ algorithm_did ++ " is not trusted.")
    ∧ ∀ (env2 : AlgoEnv) (sid2 : Option String) (did2 : String),
        _validate_trusted_algos env2 sid2 did2 [] [] = none := by
  constructor
  · unfold _validate_trusted_algos
    rw [if_neg (by simp [halg])]
    rw [if_neg (by simp [howner])]
    rw [if_neg (by simp [halg])]
    have hnone : trusted_algorithms.any (fun a => a.did.isNone) = false := by
      rw [List.any_eq_false]
      intro a ha
      rcases Option.isSome_iff_exists.mp (hdids a ha) with ⟨d, hd⟩
      simp [hd]
    rw [if_neg (by simp [hnone])]
    have hfind : trusted_algorithms.reverse.find? (fun a => a.did == some algorithm_did)
        = none := by
      rw [List.find?_eq_none]
      intro a ha
      simp [habsent a (List.mem_reverse.mp ha)]
    rw [hfind]
  · intro env2 sid2 did2
    simp [_validate_trusted_algos]

theorem validate_input_loop_first_failure {α : Type} (itemCheck : Nat → α → Option String)
    (pre : List α) (bad : α) (e : String) (rest : List α) :
    ∀ k : Nat,
      (∀ i (hi : i < pre.length), itemCheck (k + i) (pre.get ⟨i, hi⟩) = none) →
      itemCheck (k + pre.length) bad = some e →
      validate_input_loop itemCheck k (pre ++ bad :: rest)
        = some (item_error_message (k + pre.length) e) := by
  induction pre with
  | nil =>
    intro k h1 h2
    simp only [List.length_nil, Nat.add_zero] at h2 ⊢
    simp [validate_input_loop, h2]
  | cons x xs ih =>
    intro k h1 h2
    have hx : itemCheck k x = none := by simpa using h1 0 (by simp)
    simp only [List.cons_append, validate_input_loop, hx]
    have h1x : ∀ i (hi : i < xs.length), itemCheck (k + 1 + i) (xs.get ⟨i, hi⟩) = none := by
      intro i hi
      have harg : k + 1 + i = k + (i + 1) := by omega
      rw [harg]
      have := h1 (i + 1) (by simpa using Nat.succ_lt_succ hi)
      simpa using this
    have h2x : itemCheck (k + 1 + xs.length) bad = some e := by
      have harg : k + 1 + xs.length = k + (x :: xs).length := by simp; omega
      rw [harg]
      exact h2
    have harg : k + 1 + xs.length = k + (x :: xs).length := by
      simp
      omega
    rw [← harg]
    exact ih (k + 1) h1x h2x

/-- Claim C7: the workflow input loop stops at the first failing item, its
result does not depend on the items after the failing one, and the
propagated message is the item error unprefixed at index 0 and prefixed
with the position at any later index. -/
theorem workflow_first_failure_stops {α : Type}
    (itemCheck : Nat → α → Option String) (pre : List α) (bad : α) (e : String)
    (h1 : ∀ i (hi : i < pre.length), itemCheck i (pre.get ⟨i, hi⟩) = none)
    (h2 : itemCheck pre.length bad = some e) :
    (∀ rest : List α, validate_input_loop itemCheck 0 (pre ++ bad :: rest)
        = some (item_error_message pre.length e))
    ∧ (∀ rest rest2 : List α,
        validate_input_loop itemCheck 0 (pre ++ bad :: rest)
          = validate_input_loop itemCheck 0 (pre ++ bad :: rest2))
    ∧ (pre = [] → ∀ rest : List α,
        validate_input_loop itemCheck 0 (pre ++ bad :: rest) = some e)
    ∧ (pre ≠ [] → ∀ rest : List α,
        validate_input_loop itemCheck 0 (pre ++ bad :: rest)
          = some ("Error in input at index " ++ toString pre.length ++ ": " ++ e)) := by
  have hmain : ∀ rest : List α, validate_input_loop itemCheck 0 (pre ++ bad :: rest)
      = some (item_error_message pre.length e) := by
    intro rest
    have := validate_input_loop_first_failure itemCheck pre bad e rest 0
      (by intro i hi; simpa using h1 i hi) (by simpa using h2)
    simpa using this
  refine ⟨hmain, ?_, ?_, ?_⟩
  · intro rest rest2
    rw [hmain rest, hmain rest2]
  · intro hpre rest
    rw [hmain rest]
    subst hpre
    simp [item_error_message]
  · intro hpre rest
    rw [hmain rest]
    have : pre.length ≠ 0 := by
      intro h
      exact hpre (List.length_eq_zero.mp h)
    simp [item_error_message, this]

/-- Claim C8: a serviceId equal to the integer 0 passes the required-field
check and validation proceeds to the asset resolution; the missing
serviceId failure happens exactly on the items whose serviceId is falsy
and unequal to the integer 0, while every other item proceeds to the
asset resolution. -/
theorem serviceId_zero_is_present
    (env : ItemEnv) (ledger : List ConsumeRecord) (consumer : String)
    (item : InputItem) (index : Nat)
    (hdoc : truthy item.documentId)
    (htx : truthy item.transferTxId)
    (hzero : item.serviceId = PyVal.pyint 0) :
    InputItemValidator.validate env ledger consumer item index
      = validate_resolved env ledger consumer item index
    ∧ ∀ item2 : InputItem, truthy item2.documentId → truthy item2.transferTxId →
        ((¬ truthy item2.serviceId ∧ item2.serviceId ≠ PyVal.pyint 0 →
          InputItemValidator.validate env ledger consumer item2 index
            = Except.ok (some "No serviceId in input item.", ledger))
        ∧ ((truthy item2.serviceId ∨ item2.serviceId = PyVal.pyint 0) →
          InputItemValidator.validate env ledger consumer item2 index
            = validate_resolved env ledger consumer item2 index)) := by
  constructor
  · unfold InputItemValidator.validate
    rw [if_neg (by simp [hdoc]), if_neg (by simp [htx]), if_neg (by simp [hzero])]
  · intro item2 hdoc2 htx2
    constructor
    · intro hmiss
      unfold InputItemValidator.validate
      rw [if_neg (by simp [hdoc2]), if_neg (by simp [htx2]), if_pos hmiss]
    · intro hok
      unfold InputItemValidator.validate
      rw [if_neg (by simp [hdoc2]), if_neg (by simp [htx2]), if_neg]
      rcases hok with h | h
      · simp [h]
      · simp [h]

/-- Claim C9: an input item reaching the remote branch (a non-compute service
whose file list does not resolve, at a non-zero index) with a truthy
userdata makes validate raise an uncaught AttributeError for the name
validate_inputs instead of returning a boolean outcome. -/
theorem remote_userdata_attribute_error
    (env : ItemEnv) (ledger : List ConsumeRecord) (consumer : String)
    (item : InputItem) (index : Nat) (asset : AssetInfo) (service : ServiceInfo)
    (hdoc : truthy item.documentId)
    (htx : truthy item.transferTxId)
    (hsid : truthy item.serviceId ∨ item.serviceId = PyVal.pyint 0)
    (hasset : env.getAsset item.documentId = some asset)
    (hsvc : asset.getServiceById item.serviceId = some service)
    (hcons : (env.checkConsumable consumer service.serviceEndpoint).1 = true)
    (htype : service.svcType = "access")
    (hidx : index ≠ 0)
    (hurls : env.getServiceFilesList service = [])
    (hud : truthy item.userdata) :
    InputItemValidator.validate env ledger consumer item index
      = Except.error (PyExc.attributeError "validate_inputs") := by
  unfold InputItemValidator.validate
  rw [if_neg (by simp [hdoc]), if_neg (by simp [htx]), if_neg (by rcases hsid with h | h <;> simp [h])]
  unfold validate_resolved
  dsimp only
  rw [hasset]
  dsimp only
  rw [hsvc]
  dsimp only
  rw [if_neg (by simp [hcons])]
  rw [if_neg (by simp [htype])]
  rw [if_neg (by simp [htype, hidx])]
  rw [hurls]
  rw [if_neg (by simp [htype])]
  rw [if_neg (by simp [htype])]
  dsimp only
  rw [if_neg (by simp)]
  rw [if_pos (by simp [hud])]
  rfl

/-- Claim C10: validate_timestamp returns False on every input, the claimed
future-timestamp acceptance included, because the compared values have
incompatible types and the resulting TypeError is swallowed by the
except clause. -/
theorem validate_timestamp_always_false :
    validate_timestamp (PyVal.pyint 2000) 1000 = false
    ∧ ∀ (value : PyVal) (now : Int), validate_timestamp value now = false := by
  refine ⟨rfl, ?_⟩
  intro value now
  unfold validate_timestamp
  cases hdt : datetime_fromtimestamp value
  · rfl
  · rfl


theorem transfer_replay_witness :
    ("d2" ≠ "d1" ∨ "s1" ≠ "s1")
    ∧ (validate_usage (Except.ok 1) [] "d1" "s1" "t1" "c" "k").1 = Except.ok 1
    ∧ validate_usage (Except.ok 2)
        (validate_usage (Except.ok 1) [] "d1" "s1" "t1" "c" "k").2 "d2" "s1" "t1" "c" "k"
      = (Except.error (UsageError.ledgerError LedgerError.transferAlreadyUsed),
         (validate_usage (Except.ok 1) [] "d1" "s1" "t1" "c" "k").2)
    ∧ (validate_usage (Except.ok 3)
        (validate_usage (Except.ok 1) [] "d1" "s1" "t1" "c" "k").2 "d1" "s1" "t1" "c" "k").1
      = Except.ok 3 := by
  have h := transfer_replay_protection [] "d1" "s1" "t1" "d2" "s1" "c" "k" "c" "k" 1 2 3
    (by simp) (Or.inl (by decide))
  exact ⟨Or.inl (by decide), h.1, h.2.1, h.2.2⟩

theorem trusted_algo_witness :
    (["pub"] ≠ ([] : List String) ∧ wAlgoEnv.ownerOf "did:op:9" ∈ ["pub"])
    ∧ _validate_trusted_algos wAlgoEnv none "did:op:9"
        [⟨some "did:op:2", none, none⟩] ["pub"]
      = some "this algorithm did did:op:9 is not trusted."
    ∧ _validate_trusted_algos wAlgoEnv none "did:op:9" [] [] = none := by
  have h := trusted_algo_checks_additive wAlgoEnv none "did:op:9"
    [⟨some "did:op:2", none, none⟩] ["pub"] (by decide) (by decide) (by decide)
    (by decide) (by decide)
  exact ⟨⟨by decide, by decide⟩, h.1, h.2 wAlgoEnv none "did:op:9"⟩

theorem workflow_first_failure_witness :
    validate_input_loop wItemCheck 0 [10, 11, 12, 13] = some "Error in input at index 1: boom"
    ∧ validate_input_loop wItemCheck 0 [20, 11] = some "Error in input at index 1: boom" := by
  constructor
  · have h := workflow_first_failure_stops wItemCheck [10] 11 "boom"
      (by
        intro i hi
        have : i = 0 := by simpa using hi
        subst this
        rfl)
      rfl
    exact (h.1 [12, 13]).trans (by rfl)
  · have h := workflow_first_failure_stops wItemCheck [20] 11 "boom"
      (by
        intro i hi
        have : i = 0 := by simpa using hi
        subst this
        rfl)
      rfl
    exact (h.1 []).trans (by rfl)

theorem serviceId_zero_witness :
    truthy wInputItem.documentId = true
    ∧ wInputItem.serviceId = PyVal.pyint 0
    ∧ InputItemValidator.validate wItemEnv [] "c" wInputItem 1
        = validate_resolved wItemEnv [] "c" wInputItem 1 := by
  refine ⟨by decide, rfl, ?_⟩
  exact (serviceId_zero_is_present wItemEnv [] "c" wInputItem 1 (by decide) (by decide) rfl).1

theorem remote_userdata_witness :
    truthy wInputItem.userdata = true
    ∧ wItemEnv.getServiceFilesList wServiceInfo = []
    ∧ InputItemValidator.validate wItemEnv [] "c" wInputItem 1
        = Except.error (PyExc.attributeError "validate_inputs") := by
  refine ⟨by decide, rfl, ?_⟩
  exact remote_userdata_attribute_error wItemEnv [] "c" wInputItem 1 wAsset wServiceInfo
    (by decide) (by decide) (Or.inr rfl) rfl rfl rfl rfl (by decide) rfl (by decide)
